import Mathlib

/-!
# Notes service: ownership model and query layer

A shallow embedding of the request handlers of `backend/index.js`.

* The document store is a pair of lists (users, notes); `findOne`, `find`,
  `save`, `deleteOne` and `sort` are list functions.
* Request bodies carry JSON values (`JVal`); JavaScript truthiness is `JVal.truthy`.
* What the collaborators supply to one request (the generated `_id`, the clock,
  and the awaited call that throws, if any) is the record `Ext`.
* The hashing primitive, the token signer and the store's regular-expression
  engine are parameters (`Crypto`, and `rx` of `searchNotes`): they are not
  part of the repository.
-/

namespace Notes

/-! ## JSON values and truthiness -/

/-- A JSON value as a handler reads it from `req.body`; `undefined` is an absent field.
Numbers are integers here: the handlers only test a number for being zero. -/
inductive JVal where
  | undefined : JVal
  | null : JVal
  | bool (b : Bool) : JVal
  | num (n : Int) : JVal
  | str (s : String) : JVal
  | arr (xs : List JVal) : JVal
  | obj (kvs : List (String × JVal)) : JVal

/-- JavaScript truthiness (`if (v)`, `!v`, `!!v`): `undefined`, `null`, `false`,
`0` and `""` are falsy, every other value (arrays and objects included) is truthy. -/
def JVal.truthy : JVal → Bool
  | .undefined => false
  | .null => false
  | .bool b => b
  | .num n => n != 0
  | .str s => s != ""
  | .arr _ => true
  | .obj _ => true

/-- The test `typeof v === "boolean"`. -/
def JVal.isBoolean : JVal → Bool
  | .bool _ => true
  | _ => false

/-- The expression `a || b`. -/
def JVal.or (a b : JVal) : JVal := if a.truthy then a else b

/-- Truthiness of an optional string (a credential or a query parameter):
absent and `""` are falsy. -/
def strTruthy : Option String → Bool
  | none => false
  | some s => s != ""

/-! ## Documents and the store -/

abbrev Id := Nat

/-- A user document. -/
structure User where
  _id : Id
  fullName : String
  email : String
  password : String
  createdOn : Nat

/-- A note document. `title`, `content` and `tags` hold the values the handlers
assign; `isPinned` is only ever written with a boolean. -/
structure Note where
  _id : Id
  title : JVal
  content : JVal
  tags : JVal
  isPinned : Bool
  userId : Id
  createdOn : Nat

/-- The two collections. -/
structure Store where
  users : List User
  notes : List Note

/-- What the collaborators supply to one request. -/
structure Ext where
  /-- the `_id` generated for a document created by this request -/
  newId : Id
  /-- the clock, for `createdOn` -/
  now : Nat
  /-- the awaited call of the handler (numbered from 0) that throws, if any -/
  fault : Option Nat

/-- Whether the `k`-th call of the handler throws. -/
def Ext.throwsAt (x : Ext) (k : Nat) : Bool := x.fault == some k

/-- An `Ext` whose collaborators all answer. -/
def Ext.ok (newId now : Nat) : Ext := ⟨newId, now, none⟩

/-- The hashing primitive and the token signer. -/
structure Crypto where
  /-- `bcrypt.hash(password, 10)` -/
  hash : String → String
  /-- `bcrypt.compare(password, hashed)` -/
  compare : String → String → Bool
  /-- `jwt.sign(\x7buserId\x7d, secret, ...)` -/
  sign : Id → String
  /-- `jwt.verify(token, secret)`, the `userId` claim of a valid token -/
  verify : String → Option Id

/-! ## Responses -/

/-- The redacted user view of `/get-user`. -/
structure UserView where
  fullName : String
  email : String
  _id : Id
  createdOn : Nat

/-- An HTTP response: the status and the fields of the JSON body; a field that the
handler does not send is `none`. -/
structure Response where
  status : Nat
  error : Option Bool := none
  message : Option String := none
  accessToken : Option String := none
  email : Option String := none
  user : Option UserView := none
  note : Option Note := none
  notes : Option (List Note) := none
  data : Option String := none

/-- The body `\x7berror: true, message\x7d` sent with a failure status. -/
def fail (status : Nat) (msg : String) : Response :=
  { status := status, error := some true, message := some msg }

/-! ## Store queries -/

/-- `User.findOne(\x7bemail\x7d)`. -/
def findOneUser (users : List User) (email : String) : Option User :=
  users.find? (fun u => u.email == email)

/-- `User.findById(id)`. -/
def findUserById (users : List User) (id : Id) : Option User :=
  users.find? (fun u => u._id == id)

/-- `Note.findOne(\x7b_id: noteId, userId\x7d)`. -/
def findOneNote (notes : List Note) (noteId userId : Id) : Option Note :=
  notes.find? (fun n => n._id == noteId && n.userId == userId)

/-- `note.save()` on a document read from the store: the stored document with
that `_id` is replaced. -/
def saveNote (note : Note) : List Note → List Note
  | [] => []
  | n :: ns => if n._id == note._id then note :: ns else n :: saveNote note ns

/-- `Note.deleteOne(\x7b_id: noteId\x7d)`. -/
def deleteOne (noteId : Id) : List Note → List Note
  | [] => []
  | n :: ns => if n._id == noteId then ns else n :: deleteOne noteId ns

/-- The order of `.sort(\x7bisPinned: -1\x7d)`: descending on the pinned flag. -/
def pinnedDesc (a b : Note) : Prop := b.isPinned ≤ a.isPinned

instance : DecidableRel pinnedDesc := fun a b => by unfold pinnedDesc; infer_instance

/-- `Note.find(\x7buserId\x7d).sort(\x7bisPinned: -1\x7d)`. -/
def findSorted (notes : List Note) (userId : Id) : List Note :=
  (notes.filter (fun n => n.userId == userId)).insertionSort pinnedDesc

/-- The value test of `\x7b$regex: query, $options: "i"\x7d` with the compiled matcher
`m`: a string field is tested itself, an array field matches when one of its
string elements does, any other value does not match. -/
def regexField (m : String → Bool) : JVal → Bool
  | .str s => m s
  | .arr xs => xs.any (fun v => match v with
      | .str s => m s
      | _ => false)
  | _ => false

/-- The `Note.find` of `/search-notes`: the notes of `userId` whose title or content
matches. `rx` is the store's regular-expression engine (case-insensitive mode): it
gives the matcher of a pattern, or `none` when it rejects the pattern, in which case
the query throws. -/
def searchMatches (rx : String → Option (String → Bool)) (notes : List Note)
    (userId : Id) (query : String) : Option (List Note) :=
  (rx query).map (fun m =>
    notes.filter (fun n => n.userId == userId && (regexField m n.title || regexField m n.content)))

/-! ## Handlers

Every handler maps the store before the request to the response and the store
after it. The handlers behind `authenticateToken` take the resolved `userId`. -/

/-- `GET /`. -/
def root : Response := { status := 200, data := some "Hello" }

/-- `POST /create-acoount`. Calls inside `try`: 0 `findOne`, 1 `bcrypt.hash`,
2 `user.save`, 3 `jwt.sign`. -/
def createAccount (c : Crypto) (x : Ext) (s : Store)
    (fullName email password : Option String) : Response × Store :=
  if !strTruthy fullName || !strTruthy email || !strTruthy password then
    (fail 400 "All fields are required", s)
  else if x.throwsAt 0 then (fail 500 "Server error", s)
  else match findOneUser s.users (email.getD "") with
    | some _ => (fail 409 "User already exists", s)
    | none =>
      if x.throwsAt 1 then (fail 500 "Server error", s)
      else
        let user : User :=
          { _id := x.newId, fullName := fullName.getD "", email := email.getD "",
            password := c.hash (password.getD ""), createdOn := x.now }
        if x.throwsAt 2 then (fail 500 "Server error", s)
        else
          let s' : Store := { s with users := s.users ++ [user] }
          if x.throwsAt 3 then (fail 500 "Server error", s')
          else
            ({ status := 201, error := some false,
               message := some "Account created successfully",
               accessToken := some (c.sign user._id) }, s')

/-- `POST /login`. Calls inside `try`: 0 `findOne`, 1 `bcrypt.compare`, 2 `jwt.sign`. -/
def login (c : Crypto) (x : Ext) (s : Store) (email password : Option String) :
    Response × Store :=
  if !strTruthy email || !strTruthy password then
    (fail 400 "Email and Password are required.", s)
  else if x.throwsAt 0 then (fail 500 "Server error.", s)
  else match findOneUser s.users (email.getD "") with
    | none => (fail 400 "User not found.", s)
    | some user =>
      if x.throwsAt 1 then (fail 500 "Server error.", s)
      else if !c.compare (password.getD "") user.password then
        (fail 401 "Invalid credentials.", s)
      else if x.throwsAt 2 then (fail 500 "Server error.", s)
      else
        ({ status := 200, error := some false, message := some "Login successful.",
           email := email, accessToken := some (c.sign user._id) }, s)

/-- `GET /get-user`. Call inside `try`: 0 `findById`. -/
def getUser (x : Ext) (s : Store) (userId : Id) : Response × Store :=
  if x.throwsAt 0 then (fail 500 "Server error.", s)
  else match findUserById s.users userId with
    | none => (fail 401 "Unauthorized", s)
    | some user =>
      ({ status := 200,
         user := some { fullName := user.fullName, email := user.email,
                        _id := user._id, createdOn := user.createdOn },
         message := some "" }, s)

/-- The JSON body of the note requests; an absent field is `undefined`. -/
structure NoteBody where
  title : JVal := .undefined
  content : JVal := .undefined
  tags : JVal := .undefined
  isPinned : JVal := .undefined

/-- Modelled from the spec: the `Note` model (`models/notes.model.js`) is not among the
sources; `new Note(\x7btitle, content, tags, userId\x7d)` gives the document its generated
`_id`, the pinned flag `false` ("persists with pinned=false") and the creation time. -/
def newNote (x : Ext) (title content tags : JVal) (userId : Id) : Note :=
  { _id := x.newId, title := title, content := content, tags := tags,
    isPinned := false, userId := userId, createdOn := x.now }

/-- `POST /add-note`. Call inside `try`: 0 `note.save`. -/
def addNote (x : Ext) (s : Store) (userId : Id) (b : NoteBody) : Response × Store :=
  if !b.title.truthy || !b.content.truthy then
    (fail 400 "Title and Content are required.", s)
  else
    let note := newNote x b.title b.content (b.tags.or (.arr [])) userId
    if x.throwsAt 0 then (fail 500 "Server error.", s)
    else
      ({ status := 200, error := some false, note := some note,
         message := some "Note added successfully." },
       { s with notes := s.notes ++ [note] })

/-- The four assignments of `/edit-note`. -/
def applyPatch (note : Note) (b : NoteBody) : Note :=
  let note := if b.title.truthy then { note with title := b.title } else note
  let note := if b.content.truthy then { note with content := b.content } else note
  let note := if b.tags.truthy then { note with tags := b.tags } else note
  match b.isPinned with
  | .bool p => { note with isPinned := p }
  | _ => note

/-- `PUT /edit-note/:noteId`. Calls inside `try`: 0 `findOne`, 1 `note.save`. -/
def editNote (x : Ext) (s : Store) (userId noteId : Id) (b : NoteBody) :
    Response × Store :=
  if x.throwsAt 0 then (fail 500 "Server error.", s)
  else match findOneNote s.notes noteId userId with
    | none => (fail 404 "Note not found.", s)
    | some note =>
      let note := applyPatch note b
      if x.throwsAt 1 then (fail 500 "Server error.", s)
      else
        ({ status := 200, error := some false, note := some note,
           message := some "Note updated successfully." },
         { s with notes := saveNote note s.notes })

/-- `GET /get-all-notes`. Call inside `try`: 0 `find().sort()`. -/
def getAllNotes (x : Ext) (s : Store) (userId : Id) : Response × Store :=
  if x.throwsAt 0 then (fail 500 "Server error.", s)
  else
    ({ status := 200, error := some false, notes := some (findSorted s.notes userId),
       message := some "All notes fetched successfully." }, s)

/-- `DELETE /delete-note/:noteId`. Calls inside `try`: 0 `findOne`, 1 `deleteOne`. -/
def deleteNote (x : Ext) (s : Store) (userId noteId : Id) : Response × Store :=
  if x.throwsAt 0 then (fail 500 "Server error.", s)
  else match findOneNote s.notes noteId userId with
    | none => (fail 404 "Note not found.", s)
    | some _ =>
      if x.throwsAt 1 then (fail 500 "Server error.", s)
      else
        ({ status := 200, error := some false,
           message := some "Note deleted successfully" },
         { s with notes := deleteOne noteId s.notes })

/-- `PUT /update-note-pinned/:noteId`. Calls inside `try`: 0 `findOne`, 1 `note.save`. -/
def updateNotePinned (x : Ext) (s : Store) (userId noteId : Id) (isPinned : JVal) :
    Response × Store :=
  if x.throwsAt 0 then (fail 500 "Server error.", s)
  else match findOneNote s.notes noteId userId with
    | none => (fail 404 "Note not found", s)
    | some note =>
      let note := { note with isPinned := isPinned.truthy }
      if x.throwsAt 1 then (fail 500 "Server error.", s)
      else
        ({ status := 200, error := some false, message := some "Pinned status updated" },
         { s with notes := saveNote note s.notes })

/-- `GET /search-notes`. Call inside `try`: 0 `Note.find`, which also throws when the
store rejects the pattern. The notes found are not put in the response. -/
def searchNotes (rx : String → Option (String → Bool)) (x : Ext) (s : Store)
    (userId : Id) (query : Option String) : Response × Store :=
  if !strTruthy query then (fail 400 "Query is required", s)
  else if x.throwsAt 0 then (fail 500 "Server error.", s)
  else match searchMatches rx s.notes userId (query.getD "") with
    | none => (fail 500 "Server error.", s)
    | some _ => ({ status := 200, error := some false,
                   message := some "Matching notes found." }, s)

/-! ## Invariant, claim-side notions and sample data -/

/-- The store's guarantee on a collection: `_id` is a unique key. -/
def UniqueIds (notes : List Note) : Prop := (notes.map (fun n => n._id)).Nodup

instance (notes : List Note) : Decidable (UniqueIds notes) := by
  unfold UniqueIds; infer_instance

/-- A store with one note, owned by user 1. -/
def demoNote : Note :=
  { _id := 10, title := .str "t", content := .str "c", tags := .arr [.str "x"],
    isPinned := false, userId := 1, createdOn := 0 }

/-- The store holding `demoNote` only. -/
def demoStore : Store := { users := [], notes := [demoNote] }

instance : IsTotal Note pinnedDesc :=
  ⟨fun a b => by unfold pinnedDesc; exact le_total _ _⟩

instance : IsTrans Note pinnedDesc :=
  ⟨fun a b c hab hbc => by unfold pinnedDesc at *; exact le_trans hbc hab⟩

/-- Emptiness of a stored value: an absent or null value, the empty string, the empty
array and the empty object are empty. -/
def JVal.isEmpty : JVal → Bool
  | .undefined => true
  | .null => true
  | .str s => s == ""
  | .arr xs => xs.isEmpty
  | .obj kvs => kvs.isEmpty
  | _ => false

/-- The store after a registration that passes validation and the uniqueness check and
whose `save` answers. -/
def registered (c : Crypto) (x : Ext) (s : Store) (fn e p : String) : Store :=
  { s with users := s.users ++
      [{ _id := x.newId, fullName := fn, email := e, password := c.hash p,
         createdOn := x.now }] }

/-- A toy instance of the primitives: the hash appends a mark, `compare` re-hashes,
the token is the id in unary. -/
def demoCrypto : Crypto :=
  { hash := fun p => p ++ "#"
    compare := fun p h => p ++ "#" == h
    sign := fun i => String.mk (List.replicate i (Char.ofNat 49))
    verify := fun t => some t.length }

/-- The stores reached from the empty store by a sequence of `createAccount` calls,
with any arguments and any behaviour of the collaborators. -/
inductive Reachable (c : Crypto) : Store → Prop where
  | empty : Reachable c ⟨[], []⟩
  | register (x : Ext) (s : Store) (fn e p : Option String) :
      Reachable c s → Reachable c (createAccount c x s fn e p).2

/-- The store after user "A" registered with `demoCrypto` from the empty store. -/
def demoUsers : Store :=
  (createAccount demoCrypto (Ext.ok 5 0) ⟨[], []⟩ (some "A") (some "a@x.com")
    (some "pw123456")).2

/-- A toy instance of the engine parameter, to run the handlers on examples; it is
not the store's engine. It reads every pattern as literal text and looks for it in
the text ignoring the case of ASCII letters. -/
def demoRx (pattern : String) : Option (String → Bool) :=
  some (fun text =>
    decide (pattern.toList.map Char.toLower <:+: text.toList.map Char.toLower))

/-- Two notes that mention tea, one of user 1 and one of user 2. -/
def teaStore : Store :=
  { users := []
    notes :=
      [{ _id := 10, title := .str "Green Tea", content := .str "steep", tags := .arr [],
         isPinned := false, userId := 1, createdOn := 0 },
       { _id := 11, title := .str "shopping", content := .str "tea bags", tags := .arr [],
         isPinned := true, userId := 2, createdOn := 1 }] }

/-- The uniform envelope: the body has a boolean `error` and a string `message`, and
`error` is true exactly when the status is a failure status (400 and above). -/
def Response.hasEnvelope (r : Response) : Bool :=
  match r.error, r.message with
  | some b, some _ => b == decide (400 ≤ r.status)
  | _, _ => false

/-! # Theorems -/

/-! ## Store invariant and lookup lemmas -/

theorem findOneNote_eq_none_iff (notes : List Note) (noteId userId : Id) :
    findOneNote notes noteId userId = none ↔
      ∀ n ∈ notes, ¬ (n._id = noteId ∧ n.userId = userId) := by
  simp [findOneNote, List.find?_eq_none]

theorem id_determines_note {notes : List Note} (hu : UniqueIds notes) {a b : Note}
    (ha : a ∈ notes) (hb : b ∈ notes) (h : a._id = b._id) : a = b := by
  unfold UniqueIds at hu
  exact List.inj_on_of_nodup_map hu ha hb h

theorem findOneNote_foreign {notes : List Note} (hu : UniqueIds notes) {n : Note}
    (hn : n ∈ notes) {b : Id} (hb : b ≠ n.userId) : findOneNote notes n._id b = none := by
  rw [findOneNote_eq_none_iff]
  rintro m hm ⟨hid, hown⟩
  have : m = n := id_determines_note hu hm hn hid
  subst this
  exact hb hown.symm

theorem findOneNote_own {notes : List Note} (hu : UniqueIds notes) {n : Note}
    (hn : n ∈ notes) : findOneNote notes n._id n.userId = some n := by
  induction notes with
  | nil => cases hn
  | cons m ms ih =>
    have hu' : UniqueIds ms := by
      unfold UniqueIds at hu ⊢
      exact (List.nodup_cons.mp (by simpa using hu)).2
    by_cases hmn : m = n
    · subst hmn
      simp [findOneNote]
    · have hn' : n ∈ ms := by
        rcases List.mem_cons.mp hn with h | h
        · exact absurd h.symm hmn
        · exact h
      have hid : m._id ≠ n._id := fun h =>
        hmn (id_determines_note hu (List.mem_cons_self _ _) hn h)
      have := ih hu' hn'
      simp only [findOneNote] at this ⊢
      rw [List.find?_cons, this]
      have hb : (m._id == n._id && m.userId == n.userId) = false := by simp [hid]
      rw [hb]

/-! ## Ownership (C1) -/

/-- C1: with the identity `b` of a user who does not own the note `n`, `editNote`,
`updateNotePinned` and `deleteNote` called on the id of `n` leave the store as it was
whatever the collaborators do, and, when no collaborator throws, answer 404 with
`error: true` and the message "Note not found"; `n` is still found under its owner. -/
theorem foreign_identity_not_found (s : Store) (hu : UniqueIds s.notes) (n : Note)
    (hn : n ∈ s.notes) (b : Id) (hb : b ≠ n.userId) (x : Ext) (body : NoteBody)
    (p : JVal) :
    (editNote x s b n._id body).2 = s ∧
    (updateNotePinned x s b n._id p).2 = s ∧
    (deleteNote x s b n._id).2 = s ∧
    (x.fault = none →
      (editNote x s b n._id body).1 = fail 404 "Note not found." ∧
      (updateNotePinned x s b n._id p).1 = fail 404 "Note not found" ∧
      (deleteNote x s b n._id).1 = fail 404 "Note not found.") ∧
    findOneNote (editNote x s b n._id body).2.notes n._id n.userId = some n ∧
    findOneNote (updateNotePinned x s b n._id p).2.notes n._id n.userId = some n ∧
    findOneNote (deleteNote x s b n._id).2.notes n._id n.userId = some n := by
  have hnone : findOneNote s.notes n._id b = none := findOneNote_foreign hu hn hb
  have hown : findOneNote s.notes n._id n.userId = some n := findOneNote_own hu hn
  have e1 : (editNote x s b n._id body).2 = s := by
    unfold editNote; rw [hnone]; split <;> rfl
  have e2 : (updateNotePinned x s b n._id p).2 = s := by
    unfold updateNotePinned; rw [hnone]; split <;> rfl
  have e3 : (deleteNote x s b n._id).2 = s := by
    unfold deleteNote; rw [hnone]; split <;> rfl
  refine ⟨e1, e2, e3, ?_, ?_, ?_, ?_⟩
  · intro hx
    have h0 : x.throwsAt 0 = false := by simp [Ext.throwsAt, hx]
    refine ⟨?_, ?_, ?_⟩
    · unfold editNote; rw [hnone, h0]; rfl
    · unfold updateNotePinned; rw [hnone, h0]; rfl
    · unfold deleteNote; rw [hnone, h0]; rfl
  · rw [e1]; exact hown
  · rw [e2]; exact hown
  · rw [e3]; exact hown

/-- C1 at the store `demoStore`: user 2 acts on the note of user 1. -/
theorem foreign_identity_not_found_witness :
    (editNote (Ext.ok 0 0) demoStore 2 10 { title := .str "z" }).2 = demoStore ∧
    (updateNotePinned (Ext.ok 0 0) demoStore 2 10 (.bool true)).2 = demoStore ∧
    (deleteNote (Ext.ok 0 0) demoStore 2 10).2 = demoStore ∧
    ((Ext.ok 0 0).fault = none →
      (editNote (Ext.ok 0 0) demoStore 2 10 { title := .str "z" }).1
        = fail 404 "Note not found." ∧
      (updateNotePinned (Ext.ok 0 0) demoStore 2 10 (.bool true)).1
        = fail 404 "Note not found" ∧
      (deleteNote (Ext.ok 0 0) demoStore 2 10).1 = fail 404 "Note not found.") ∧
    findOneNote (editNote (Ext.ok 0 0) demoStore 2 10 { title := .str "z" }).2.notes 10 1
      = some demoNote ∧
    findOneNote (updateNotePinned (Ext.ok 0 0) demoStore 2 10 (.bool true)).2.notes 10 1
      = some demoNote ∧
    findOneNote (deleteNote (Ext.ok 0 0) demoStore 2 10).2.notes 10 1 = some demoNote :=
  foreign_identity_not_found demoStore (by simp [UniqueIds, demoStore]) demoNote
    (by simp [demoStore]) 2 (by decide) (Ext.ok 0 0) { title := .str "z" } (.bool true)

/-! ## Listing (C2) -/

theorem findSorted_perm (notes : List Note) (owner : Id) :
    (findSorted notes owner).Perm (notes.filter (fun n => n.userId == owner)) :=
  List.perm_insertionSort _ _

theorem mem_findSorted (notes : List Note) (owner : Id) (n : Note) :
    n ∈ findSorted notes owner ↔ n ∈ notes ∧ n.userId = owner := by
  rw [(findSorted_perm notes owner).mem_iff]
  simp [List.mem_filter]

theorem findSorted_pinned_first (notes : List Note) (owner : Id) :
    (findSorted notes owner).Pairwise
      (fun a b => ¬ (a.isPinned = false ∧ b.isPinned = true)) := by
  have h : (findSorted notes owner).Sorted pinnedDesc := List.sorted_insertionSort _ _
  refine List.Pairwise.imp ?_ h
  intro a b hab hc
  unfold pinnedDesc at hab
  rw [hc.1, hc.2] at hab
  exact absurd hab (by decide)

/-- C2: when the store answers, `getAllNotes` responds 200 with `error: false` and a
list `l` of notes such that a note is in `l` exactly when it is in the store and owned
by the caller, `l` is a rearrangement of the caller's notes (each one once per
occurrence), and no unpinned note of `l` stands before a pinned one; the store is
unchanged. -/
theorem getAllNotes_owner_pinned_first (s : Store) (owner : Id) (i t : Nat) :
    ∃ l : List Note,
      getAllNotes (Ext.ok i t) s owner =
        ({ status := 200, error := some false, notes := some l,
           message := some "All notes fetched successfully." }, s) ∧
      (∀ n, n ∈ l ↔ n ∈ s.notes ∧ n.userId = owner) ∧
      l.Perm (s.notes.filter (fun n => n.userId == owner)) ∧
      l.Pairwise (fun a b => ¬ (a.isPinned = false ∧ b.isPinned = true)) :=
  ⟨findSorted s.notes owner, rfl, mem_findSorted _ _, findSorted_perm _ _,
    findSorted_pinned_first _ _⟩

/-! ## Editing (C4, C5) -/

theorem saveNote_ids (note : Note) (notes : List Note) :
    (saveNote note notes).map (fun n => n._id) = notes.map (fun n => n._id) := by
  induction notes with
  | nil => rfl
  | cons m ms ih =>
    unfold saveNote
    by_cases h : m._id = note._id
    · simp [h]
    · simp [h, ih]

theorem saveNote_unique {note : Note} {notes : List Note} (hu : UniqueIds notes) :
    UniqueIds (saveNote note notes) := by
  unfold UniqueIds at *
  rw [saveNote_ids]
  exact hu

theorem mem_saveNote {note n : Note} {notes : List Note} (hn : n ∈ notes)
    (hid : note._id = n._id) : note ∈ saveNote note notes := by
  induction notes with
  | nil => cases hn
  | cons m ms ih =>
    unfold saveNote
    by_cases h : m._id = note._id
    · simp [h]
    · have hn' : n ∈ ms := by
        rcases List.mem_cons.mp hn with e | e
        · subst e; exact absurd hid.symm h
        · exact e
      simp [h, ih hn']

theorem deleteOne_sublist (noteId : Id) (notes : List Note) :
    (deleteOne noteId notes).Sublist notes := by
  induction notes with
  | nil => exact List.Sublist.refl _
  | cons m ms ih =>
    unfold deleteOne
    split_ifs
    · exact List.sublist_cons_self _ _
    · exact ih.cons₂ _

theorem deleteOne_unique {noteId : Id} {notes : List Note} (hu : UniqueIds notes) :
    UniqueIds (deleteOne noteId notes) := by
  unfold UniqueIds at *
  exact hu.sublist ((deleteOne_sublist noteId notes).map _)

/-- The note handlers keep `_id` a unique key, `addNote` provided the generated id is
not in use. -/
theorem note_handlers_keep_unique_ids (x : Ext) (s : Store) (hu : UniqueIds s.notes)
    (u noteId : Id) (b : NoteBody) (p : JVal) :
    UniqueIds (editNote x s u noteId b).2.notes ∧
    UniqueIds (updateNotePinned x s u noteId p).2.notes ∧
    UniqueIds (deleteNote x s u noteId).2.notes ∧
    ((∀ n ∈ s.notes, n._id ≠ x.newId) → UniqueIds (addNote x s u b).2.notes) := by
  refine ⟨?_, ?_, ?_, ?_⟩
  · unfold editNote
    cases findOneNote s.notes noteId u <;> dsimp only <;> split_ifs <;>
      first
        | exact hu
        | exact saveNote_unique hu
  · unfold updateNotePinned
    cases findOneNote s.notes noteId u <;> dsimp only <;> split_ifs <;>
      first
        | exact hu
        | exact saveNote_unique hu
  · unfold deleteNote
    cases findOneNote s.notes noteId u <;> dsimp only <;> split_ifs <;>
      first
        | exact hu
        | exact deleteOne_unique hu
  · intro hfresh
    unfold addNote
    dsimp only
    split_ifs
    · exact hu
    · exact hu
    · unfold UniqueIds at *
      simp only [List.map_append, List.map_cons, List.map_nil]
      rw [List.nodup_append]
      refine ⟨hu, List.nodup_singleton _, ?_⟩
      intro a ha hb
      rw [List.mem_singleton] at hb
      subst hb
      obtain ⟨n, hn, hid⟩ := List.mem_map.mp ha
      exact hfresh n hn hid

theorem applyPatch_id (n : Note) (b : NoteBody) : (applyPatch n b)._id = n._id := by
  unfold applyPatch
  cases b.isPinned <;> (dsimp only; split_ifs <;> rfl)

theorem applyPatch_userId (n : Note) (b : NoteBody) :
    (applyPatch n b).userId = n.userId := by
  unfold applyPatch
  cases b.isPinned <;> (dsimp only; split_ifs <;> rfl)

theorem applyPatch_title (n : Note) (b : NoteBody) :
    (applyPatch n b).title = if b.title.truthy then b.title else n.title := by
  unfold applyPatch
  cases b.isPinned <;> (dsimp only; split_ifs <;> rfl)

theorem applyPatch_content (n : Note) (b : NoteBody) :
    (applyPatch n b).content = if b.content.truthy then b.content else n.content := by
  unfold applyPatch
  cases b.isPinned <;> (dsimp only; split_ifs <;> rfl)

theorem applyPatch_tags (n : Note) (b : NoteBody) :
    (applyPatch n b).tags = if b.tags.truthy then b.tags else n.tags := by
  unfold applyPatch
  cases b.isPinned <;> (dsimp only; split_ifs <;> rfl)

theorem applyPatch_isPinned_bool (n : Note) (b : NoteBody) (p : Bool)
    (h : b.isPinned = .bool p) : (applyPatch n b).isPinned = p := by
  unfold applyPatch
  rw [h]

theorem applyPatch_isPinned_other (n : Note) (b : NoteBody)
    (h : b.isPinned.isBoolean = false) : (applyPatch n b).isPinned = n.isPinned := by
  unfold applyPatch
  cases hb : b.isPinned <;> first
    | (rw [hb] at h; simp [JVal.isBoolean] at h; done)
    | (dsimp only; split_ifs <;> rfl)

theorem applyPatch_createdOn (n : Note) (b : NoteBody) :
    (applyPatch n b).createdOn = n.createdOn := by
  unfold applyPatch
  cases b.isPinned <;> (dsimp only; split_ifs <;> rfl)

theorem editNote_own (s : Store) (hu : UniqueIds s.notes) (n : Note) (hn : n ∈ s.notes)
    (b : NoteBody) (i t : Nat) :
    editNote (Ext.ok i t) s n.userId n._id b =
      ({ status := 200, error := some false, note := some (applyPatch n b),
         message := some "Note updated successfully." },
       { s with notes := saveNote (applyPatch n b) s.notes }) := by
  unfold editNote
  rw [findOneNote_own hu hn]
  rfl

/-- C4: for a note `n` of the store and any body `b`, `editNote` called by the owner
of `n` (the store answering) responds 200 with `error: false` and the note `m` it has
stored under the id and owner of `n`, where title, content and tags of `m` are the
body's value when that value is truthy and the value of `n` otherwise, the pinned
flag of `m` is the body's `isPinned` when that is a boolean and the flag of `n`
otherwise, id and owner are those of `n`; with title `""` and content `""` in the
body, title and content are those of `n`. -/
theorem editNote_applies_patch (s : Store) (hu : UniqueIds s.notes) (n : Note)
    (hn : n ∈ s.notes) (b : NoteBody) (i t : Nat) :
    ∃ m : Note,
      (editNote (Ext.ok i t) s n.userId n._id b).1 =
        { status := 200, error := some false, note := some m,
          message := some "Note updated successfully." } ∧
      findOneNote (editNote (Ext.ok i t) s n.userId n._id b).2.notes n._id n.userId
        = some m ∧
      m.title = (if b.title.truthy then b.title else n.title) ∧
      m.content = (if b.content.truthy then b.content else n.content) ∧
      m.tags = (if b.tags.truthy then b.tags else n.tags) ∧
      (∀ p, b.isPinned = .bool p → m.isPinned = p) ∧
      (b.isPinned.isBoolean = false → m.isPinned = n.isPinned) ∧
      m._id = n._id ∧ m.userId = n.userId ∧
      (b.title = .str "" → b.content = .str "" →
        m.title = n.title ∧ m.content = n.content) := by
  refine ⟨applyPatch n b, ?_, ?_, applyPatch_title n b, applyPatch_content n b,
    applyPatch_tags n b, fun p hp => applyPatch_isPinned_bool n b p hp,
    applyPatch_isPinned_other n b, applyPatch_id n b, applyPatch_userId n b, ?_⟩
  · rw [editNote_own s hu n hn]
  · rw [editNote_own s hu n hn]
    have h := findOneNote_own (@saveNote_unique (applyPatch n b) s.notes hu)
      (mem_saveNote hn (applyPatch_id n b))
    rw [applyPatch_id, applyPatch_userId] at h
    exact h
  · intro h1 h2
    rw [applyPatch_title, applyPatch_content, h1, h2]
    exact ⟨rfl, rfl⟩

/-- C4 at `demoStore`: the owner sends title `""` and content `""`. -/
theorem editNote_applies_patch_witness :
    ∃ m : Note,
      (editNote (Ext.ok 0 0) demoStore 1 10 { title := .str "", content := .str "" }).1 =
        { status := 200, error := some false, note := some m,
          message := some "Note updated successfully." } ∧
      findOneNote
        (editNote (Ext.ok 0 0) demoStore 1 10
          { title := .str "", content := .str "" }).2.notes 10 1 = some m ∧
      m.title = (if (JVal.str "").truthy then .str "" else .str "t") ∧
      m.content = (if (JVal.str "").truthy then .str "" else .str "c") ∧
      m.tags = (if JVal.undefined.truthy then .undefined else .arr [.str "x"]) ∧
      (∀ p, JVal.undefined = .bool p → m.isPinned = p) ∧
      (JVal.undefined.isBoolean = false → m.isPinned = false) ∧
      m._id = 10 ∧ m.userId = 1 ∧
      (JVal.str "" = .str "" → JVal.str "" = .str "" →
        m.title = .str "t" ∧ m.content = .str "c") :=
  editNote_applies_patch demoStore (by simp [UniqueIds, demoStore]) demoNote
    (by simp [demoStore]) { title := .str "", content := .str "" } 0 0

/-- C5 fails: the note of `demoStore` has a non-empty title, content and tag set;
after its owner sends the body `\x7btags: []\x7d` to `editNote` the stored note has the
empty tag set, and after the body `\x7btitle: [], content: \x7b\x7d\x7d` the stored title is
the empty array and the stored content the empty object (empty arrays and objects are
truthy, so they are assigned). -/
theorem editNote_clears_fields :
    demoNote ∈ demoStore.notes ∧
    demoNote.title.isEmpty = false ∧ demoNote.content.isEmpty = false ∧
    demoNote.tags.isEmpty = false ∧
    (findOneNote (editNote (Ext.ok 0 0) demoStore 1 10 { tags := .arr [] }).2.notes 10 1).map
      (fun m => m.tags) = some (.arr []) ∧
    (findOneNote
      (editNote (Ext.ok 0 0) demoStore 1 10
        { title := .arr [], content := .obj [] }).2.notes 10 1).map
      (fun m => (m.title, m.content)) = some (.arr [], .obj []) ∧
    (JVal.arr []).isEmpty = true ∧ (JVal.obj []).isEmpty = true :=
  ⟨by simp [demoStore], rfl, rfl, rfl, rfl, rfl, rfl, rfl⟩

theorem truthy_not_empty {v : JVal} (h : v.truthy = true) (ha : v ≠ .arr [])
    (ho : v ≠ .obj []) : v.isEmpty = false := by
  cases v with
  | undefined => simp [JVal.truthy] at h
  | null => simp [JVal.truthy] at h
  | bool b => rfl
  | num n => rfl
  | str t =>
    simp only [JVal.truthy, bne_iff_ne, ne_eq] at h
    simp [JVal.isEmpty, h]
  | arr xs =>
    cases xs with
    | nil => exact absurd rfl ha
    | cons y ys => rfl
  | obj kvs =>
    cases kvs with
    | nil => exact absurd rfl ho
    | cons y ys => rfl

theorem patched_not_empty {old new : JVal} (h : old.isEmpty = false) (ha : new ≠ .arr [])
    (ho : new ≠ .obj []) : (if new.truthy then new else old).isEmpty = false := by
  split_ifs with ht
  · exact truthy_not_empty ht ha ho
  · exact h

/-- C5 as amended: for a note `n` of the store whose title, content and tags are
non-empty and any body, each of title, content and tags of the note `m` that
`editNote` stores for the owner is still non-empty, unless the body gives that field
the empty array or the empty object; a falsy or absent value in the body (`""`,
`null`, `false`, `0`) leaves the field as it was. -/
theorem editNote_keeps_fields_nonempty (s : Store) (hu : UniqueIds s.notes) (n : Note)
    (hn : n ∈ s.notes) (ht : n.title.isEmpty = false) (hc : n.content.isEmpty = false)
    (hg : n.tags.isEmpty = false) (b : NoteBody) (i t : Nat) :
    ∃ m : Note,
      findOneNote (editNote (Ext.ok i t) s n.userId n._id b).2.notes n._id n.userId
        = some m ∧
      (b.title ≠ .arr [] → b.title ≠ .obj [] → m.title.isEmpty = false) ∧
      (b.content ≠ .arr [] → b.content ≠ .obj [] → m.content.isEmpty = false) ∧
      (b.tags ≠ .arr [] → b.tags ≠ .obj [] → m.tags.isEmpty = false) ∧
      (b.title.truthy = false → m.title = n.title) ∧
      (b.content.truthy = false → m.content = n.content) ∧
      (b.tags.truthy = false → m.tags = n.tags) := by
  refine ⟨applyPatch n b, ?_, ?_, ?_, ?_, ?_, ?_, ?_⟩
  · rw [editNote_own s hu n hn]
    have h := findOneNote_own (@saveNote_unique (applyPatch n b) s.notes hu)
      (mem_saveNote hn (applyPatch_id n b))
    rw [applyPatch_id, applyPatch_userId] at h
    exact h
  · intro ha ho; rw [applyPatch_title]; exact patched_not_empty ht ha ho
  · intro ha ho; rw [applyPatch_content]; exact patched_not_empty hc ha ho
  · intro ha ho; rw [applyPatch_tags]; exact patched_not_empty hg ha ho
  · intro h; rw [applyPatch_title, h]; rfl
  · intro h; rw [applyPatch_content, h]; rfl
  · intro h; rw [applyPatch_tags, h]; rfl

/-- C5 as amended, at `demoStore` with the body
`\x7btitle: "", content: null, tags: ["y"]\x7d`. -/
theorem editNote_keeps_fields_nonempty_witness :
    ∃ m : Note,
      findOneNote
        (editNote (Ext.ok 0 0) demoStore 1 10
          { title := .str "", content := .null, tags := .arr [.str "y"] }).2.notes
        10 1 = some m ∧
      (JVal.str "" ≠ .arr [] → JVal.str "" ≠ .obj [] → m.title.isEmpty = false) ∧
      (JVal.null ≠ .arr [] → JVal.null ≠ .obj [] → m.content.isEmpty = false) ∧
      (JVal.arr [.str "y"] ≠ .arr [] → JVal.arr [.str "y"] ≠ .obj [] →
        m.tags.isEmpty = false) ∧
      ((JVal.str "").truthy = false → m.title = .str "t") ∧
      (JVal.null.truthy = false → m.content = .str "c") ∧
      ((JVal.arr [.str "y"]).truthy = false → m.tags = .arr [.str "x"]) :=
  editNote_keeps_fields_nonempty demoStore (by simp [UniqueIds, demoStore]) demoNote
    (by simp [demoStore]) rfl rfl rfl
    { title := .str "", content := .null, tags := .arr [.str "y"] } 0 0

/-! ## Creating (C6) -/

theorem truthy_str {t : String} (h : t ≠ "") : (JVal.str t).truthy = true := by
  simp [JVal.truthy, h]

/-- C6: for a non-empty title `t`, a non-empty content `c` and any `tags` value,
`addNote` (the store answering) responds 200 with `error: false` and the created
note, and `getAllNotes` of the same owner on the resulting store responds 200 with a
list holding that note; the note has title `t`, content `c`, pinned flag `false`, the
caller as owner, and for tags the value sent when it is truthy (always so for an
array) and the empty array when it is absent or falsy. -/
theorem addNote_then_getAllNotes (s : Store) (owner : Id) (t c : String) (ht : t ≠ "")
    (hc : c ≠ "") (tags : JVal) (i k i2 k2 : Nat) :
    ∃ (note : Note) (l : List Note),
      (addNote (Ext.ok i k) s owner
          { title := .str t, content := .str c, tags := tags }).1 =
        { status := 200, error := some false, note := some note,
          message := some "Note added successfully." } ∧
      (getAllNotes (Ext.ok i2 k2)
          (addNote (Ext.ok i k) s owner
            { title := .str t, content := .str c, tags := tags }).2 owner).1 =
        { status := 200, error := some false, notes := some l,
          message := some "All notes fetched successfully." } ∧
      note ∈ l ∧
      note.title = .str t ∧ note.content = .str c ∧
      note.tags = (if tags.truthy then tags else .arr []) ∧
      (∀ xs, tags = .arr xs → note.tags = .arr xs) ∧
      (tags = .undefined → note.tags = .arr []) ∧
      note.isPinned = false ∧ note.userId = owner := by
  have hadd : addNote (Ext.ok i k) s owner
        { title := .str t, content := .str c, tags := tags } =
      ({ status := 200, error := some false,
         note := some (newNote (Ext.ok i k) (.str t) (.str c) (tags.or (.arr [])) owner),
         message := some "Note added successfully." },
       { s with notes := s.notes ++
          [newNote (Ext.ok i k) (.str t) (.str c) (tags.or (.arr [])) owner] }) := by
    unfold addNote
    simp only [truthy_str ht, truthy_str hc]
    rfl
  refine ⟨newNote (Ext.ok i k) (.str t) (.str c) (tags.or (.arr [])) owner,
    findSorted (s.notes ++
      [newNote (Ext.ok i k) (.str t) (.str c) (tags.or (.arr [])) owner]) owner,
    ?_, ?_, ?_, rfl, rfl, rfl, ?_, ?_, rfl, rfl⟩
  · rw [hadd]
  · rw [hadd]; rfl
  · rw [mem_findSorted]
    exact ⟨by simp, rfl⟩
  · intro xs h; subst h; rfl
  · intro h; subst h; rfl

/-- C6 at the empty store: user 1 adds the note "t" / "c" without tags. -/
theorem addNote_then_getAllNotes_witness :
    ∃ (note : Note) (l : List Note),
      (addNote (Ext.ok 7 0) ⟨[], []⟩ 1
          { title := .str "t", content := .str "c", tags := .undefined }).1 =
        { status := 200, error := some false, note := some note,
          message := some "Note added successfully." } ∧
      (getAllNotes (Ext.ok 0 0)
          (addNote (Ext.ok 7 0) ⟨[], []⟩ 1
            { title := .str "t", content := .str "c", tags := .undefined }).2 1).1 =
        { status := 200, error := some false, notes := some l,
          message := some "All notes fetched successfully." } ∧
      note ∈ l ∧
      note.title = .str "t" ∧ note.content = .str "c" ∧
      note.tags = (if JVal.undefined.truthy then .undefined else .arr []) ∧
      (∀ xs, JVal.undefined = .arr xs → note.tags = .arr xs) ∧
      (JVal.undefined = .undefined → note.tags = .arr []) ∧
      note.isPinned = false ∧ note.userId = 1 :=
  addNote_then_getAllNotes ⟨[], []⟩ 1 "t" "c" (by decide) (by decide) .undefined 7 0 0 0

/-! ## Accounts (C7, C8) -/

theorem strTruthy_some {t : String} (h : t ≠ "") : strTruthy (some t) = true := by
  simp [strTruthy, h]

theorem findOneUser_eq_none_iff (users : List User) (e : String) :
    findOneUser users e = none ↔ ∀ u ∈ users, u.email ≠ e := by
  simp [findOneUser, List.find?_eq_none]

theorem findOneUser_append_fresh {users : List User} {e : String}
    (h : findOneUser users e = none) (u : User) (hu : u.email = e) :
    findOneUser (users ++ [u]) e = some u := by
  unfold findOneUser at *
  rw [List.find?_append, h]
  simp [hu]

theorem createAccount_fresh (c : Crypto) (s : Store) (fn e p : String) (hfn : fn ≠ "")
    (he : e ≠ "") (hp : p ≠ "") (hfresh : findOneUser s.users e = none) (i k : Nat) :
    createAccount c (Ext.ok i k) s (some fn) (some e) (some p) =
      ({ status := 201, error := some false,
         message := some "Account created successfully",
         accessToken := some (c.sign i) }, registered c (Ext.ok i k) s fn e p) := by
  unfold createAccount
  simp only [strTruthy_some hfn, strTruthy_some he, strTruthy_some hp, Option.getD_some]
  rw [hfresh]
  rfl

/-- C7: with a `compare` that accepts every password against its own hash and a
`verify` that returns the claim `sign` was given, for non-empty `fn`, `e`, `p` and a
store with no user of email `e`, `createAccount` responds 201 and adds one user `u`
(with the generated id, `fn` and `e`), `login` with `e` and `p` on the resulting store
responds 200, and the tokens of both responses verify to the id of `u`. -/
theorem register_then_login (c : Crypto) (hcmp : ∀ p, c.compare p (c.hash p) = true)
    (hver : ∀ i, c.verify (c.sign i) = some i) (s : Store) (fn e p : String)
    (hfn : fn ≠ "") (he : e ≠ "") (hp : p ≠ "") (hfresh : ∀ u ∈ s.users, u.email ≠ e)
    (i k i2 k2 : Nat) :
    ∃ (tok1 tok2 : String) (u : User),
      (createAccount c (Ext.ok i k) s (some fn) (some e) (some p)).1 =
        { status := 201, error := some false,
          message := some "Account created successfully", accessToken := some tok1 } ∧
      (createAccount c (Ext.ok i k) s (some fn) (some e) (some p)).2.users
        = s.users ++ [u] ∧
      u._id = i ∧ u.fullName = fn ∧ u.email = e ∧
      (login c (Ext.ok i2 k2) (createAccount c (Ext.ok i k) s (some fn) (some e) (some p)).2
          (some e) (some p)).1 =
        { status := 200, error := some false, message := some "Login successful.",
          email := some e, accessToken := some tok2 } ∧
      c.verify tok2 = some u._id ∧ c.verify tok1 = some u._id := by
  have hnone : findOneUser s.users e = none := (findOneUser_eq_none_iff _ _).mpr hfresh
  refine ⟨c.sign i, c.sign i,
    { _id := i, fullName := fn, email := e, password := c.hash p, createdOn := k },
    ?_, ?_, rfl, rfl, rfl, ?_, hver i, hver i⟩
  · rw [createAccount_fresh c s fn e p hfn he hp hnone]
  · rw [createAccount_fresh c s fn e p hfn he hp hnone]; rfl
  · rw [createAccount_fresh c s fn e p hfn he hp hnone]
    unfold login
    simp only [strTruthy_some he, strTruthy_some hp, Option.getD_some]
    have hfind : findOneUser (registered c (Ext.ok i k) s fn e p).users e =
        some { _id := i, fullName := fn, email := e, password := c.hash p,
               createdOn := k } :=
      findOneUser_append_fresh hnone _ rfl
    rw [hfind]
    simp only [hcmp]
    rfl

/-- C7 at the empty store with `demoCrypto` and the account of the spec's scenario. -/
theorem register_then_login_witness :
    ∃ (tok1 tok2 : String) (u : User),
      (createAccount demoCrypto (Ext.ok 5 0) ⟨[], []⟩ (some "A") (some "a@x.com")
          (some "pw123456")).1 =
        { status := 201, error := some false,
          message := some "Account created successfully", accessToken := some tok1 } ∧
      (createAccount demoCrypto (Ext.ok 5 0) ⟨[], []⟩ (some "A") (some "a@x.com")
          (some "pw123456")).2.users = [] ++ [u] ∧
      u._id = 5 ∧ u.fullName = "A" ∧ u.email = "a@x.com" ∧
      (login demoCrypto (Ext.ok 0 1)
          (createAccount demoCrypto (Ext.ok 5 0) ⟨[], []⟩ (some "A") (some "a@x.com")
            (some "pw123456")).2 (some "a@x.com") (some "pw123456")).1 =
        { status := 200, error := some false, message := some "Login successful.",
          email := some "a@x.com", accessToken := some tok2 } ∧
      demoCrypto.verify tok2 = some u._id ∧ demoCrypto.verify tok1 = some u._id :=
  register_then_login demoCrypto (fun p => by simp [demoCrypto])
    (fun i => congrArg some (List.length_replicate i (Char.ofNat 49))) ⟨[], []⟩ "A" "a@x.com" "pw123456"
    (by decide) (by decide) (by decide) (fun u hu => by cases hu) 5 0 0 1

theorem createAccount_store (c : Crypto) (x : Ext) (s : Store) (fn e p : Option String) :
    (createAccount c x s fn e p).2 = s ∨
    (findOneUser s.users (e.getD "") = none ∧
      (createAccount c x s fn e p).2 =
        registered c x s (fn.getD "") (e.getD "") (p.getD "")) := by
  unfold createAccount
  cases hf : findOneUser s.users (e.getD "") <;> dsimp only <;> split_ifs <;>
    first
      | exact Or.inl rfl
      | exact Or.inr ⟨rfl, rfl⟩

theorem createAccount_invalid (c : Crypto) (x : Ext) (s : Store) (fn e p : Option String)
    (h : strTruthy fn = false ∨ strTruthy e = false ∨ strTruthy p = false) :
    createAccount c x s fn e p = (fail 400 "All fields are required", s) := by
  unfold createAccount
  rw [if_pos]
  rcases h with h | h | h <;> simp [h]

theorem createAccount_conflict (c : Crypto) (x : Ext) (s : Store) (fn e p : String)
    (hfn : fn ≠ "") (he : e ≠ "") (hp : p ≠ "") (hx : x.fault ≠ some 0)
    (hex : ∃ u ∈ s.users, u.email = e) :
    createAccount c x s (some fn) (some e) (some p) =
      (fail 409 "User already exists", s) := by
  have h0 : x.throwsAt 0 = false := by simp [Ext.throwsAt, hx]
  unfold createAccount
  simp only [strTruthy_some hfn, strTruthy_some he, strTruthy_some hp, Option.getD_some,
    h0]
  cases hf : findOneUser s.users e with
  | some u => rfl
  | none =>
    obtain ⟨u, hu, hue⟩ := hex
    exact absurd hue ((findOneUser_eq_none_iff _ _).mp hf u hu)

theorem reachable_emails_nodup (c : Crypto) (s : Store) (h : Reachable c s) :
    (s.users.map (fun u => u.email)).Nodup := by
  induction h with
  | empty => exact List.nodup_nil
  | register x s fn e p _ ih =>
    rcases createAccount_store c x s fn e p with h | ⟨hnone, h⟩
    · rw [h]; exact ih
    · rw [h]
      simp only [registered, List.map_append, List.map_cons, List.map_nil]
      rw [List.nodup_append]
      refine ⟨ih, List.nodup_singleton _, ?_⟩
      intro a ha hb
      rw [List.mem_singleton] at hb
      subst hb
      obtain ⟨u, hu, hue⟩ := List.mem_map.mp ha
      exact (findOneUser_eq_none_iff _ _).mp hnone u hu hue

/-- C8: `createAccount` answers 400 "All fields are required" and leaves the store as
it was when fullName, email or password is absent or empty; it answers 409 "User
already exists" and leaves the store as it was when all three are non-empty, the
lookup answers and the store has a user with that email; and in a store reached from
the empty store by `createAccount` calls no two user records carry the same email:
the emails of the user list have no repetition and an email selects at most one
record. -/
theorem createAccount_validation_conflict_unique (c : Crypto) (s : Store) :
    (∀ (x : Ext) (fn e p : Option String),
      strTruthy fn = false ∨ strTruthy e = false ∨ strTruthy p = false →
      createAccount c x s fn e p = (fail 400 "All fields are required", s)) ∧
    (∀ (x : Ext) (fn e p : String), fn ≠ "" → e ≠ "" → p ≠ "" → x.fault ≠ some 0 →
      (∃ u ∈ s.users, u.email = e) →
      createAccount c x s (some fn) (some e) (some p) =
        (fail 409 "User already exists", s)) ∧
    (Reachable c s →
      (s.users.map (fun u => u.email)).Nodup ∧
      ∀ e, (s.users.filter (fun u => u.email == e)).length ≤ 1) := by
  refine ⟨fun x fn e p h => createAccount_invalid c x s fn e p h,
    fun x fn e p hfn he hp hx hex => createAccount_conflict c x s fn e p hfn he hp hx hex,
    fun hr => ?_⟩
  have hnd := reachable_emails_nodup c s hr
  refine ⟨hnd, fun e => ?_⟩
  have hcount : (s.users.map (fun u => u.email)).count e ≤ 1 :=
    List.nodup_iff_count_le_one.mp hnd e
  have hlen : (s.users.filter (fun u => u.email == e)).length =
      (s.users.map (fun u => u.email)).count e := by
    rw [List.count_eq_countP, List.countP_map, List.countP_eq_length_filter]
    congr 1
  rw [hlen]
  exact hcount

/-- C8 at `demoUsers`: an empty password, a second registration of "a@x.com", and the
uniqueness of emails. -/
theorem createAccount_validation_conflict_unique_witness :
    createAccount demoCrypto (Ext.ok 6 1) demoUsers (some "B") (some "b@x.com") (some "")
      = (fail 400 "All fields are required", demoUsers) ∧
    createAccount demoCrypto (Ext.ok 6 1) demoUsers (some "B") (some "a@x.com")
        (some "other") = (fail 409 "User already exists", demoUsers) ∧
    (demoUsers.users.map (fun u => u.email)).Nodup ∧
    ∀ e, (demoUsers.users.filter (fun u => u.email == e)).length ≤ 1 :=
  ⟨(createAccount_validation_conflict_unique demoCrypto demoUsers).1 (Ext.ok 6 1)
      (some "B") (some "b@x.com") (some "") (Or.inr (Or.inr rfl)),
    (createAccount_validation_conflict_unique demoCrypto demoUsers).2.1 (Ext.ok 6 1)
      "B" "a@x.com" "other" (by decide) (by decide) (by decide) (by simp [Ext.ok])
      ⟨_, List.mem_singleton.mpr rfl, rfl⟩,
    (createAccount_validation_conflict_unique demoCrypto demoUsers).2.2
      (Reachable.register _ _ _ _ _ Reachable.empty)⟩

/-! ## Searching (C3, C9) -/

theorem mem_searchMatches {rx : String → Option (String → Bool)} {notes : List Note}
    {owner : Id} {q : String} {l : List Note} (h : searchMatches rx notes owner q = some l)
    {n : Note} (hn : n ∈ l) : n ∈ notes ∧ n.userId = owner := by
  unfold searchMatches at h
  cases hr : rx q with
  | none => rw [hr] at h; cases h
  | some m =>
    rw [hr] at h
    simp only [Option.map_some', Option.some.injEq] at h
    subst h
    rw [List.mem_filter] at hn
    refine ⟨hn.1, ?_⟩
    have := hn.2
    simp only [Bool.and_eq_true, beq_iff_eq] at this
    exact this.1

/-- C9: `searchNotes` with an absent or an empty query answers 400 "Query is required"
and leaves the store as it was, for every owner, store, engine and behaviour of the
collaborators; and for every query, a note in the response of `searchNotes`, and a
note in the match set its `find` computes, is a note of the store owned by the
caller. -/
theorem searchNotes_validation_and_scope (rx : String → Option (String → Bool)) (x : Ext)
    (s : Store) (owner : Id) :
    searchNotes rx x s owner none = (fail 400 "Query is required", s) ∧
    searchNotes rx x s owner (some "") = (fail 400 "Query is required", s) ∧
    (∀ (q : Option String) (n : Note),
      n ∈ (searchNotes rx x s owner q).1.notes.getD [] → n ∈ s.notes ∧ n.userId = owner) ∧
    (∀ (q : String) (l : List Note), searchMatches rx s.notes owner q = some l →
      ∀ n ∈ l, n ∈ s.notes ∧ n.userId = owner) := by
  refine ⟨rfl, rfl, ?_, fun q l h n hn => mem_searchMatches h hn⟩
  intro q n hn
  have hnotes : (searchNotes rx x s owner q).1.notes = none := by
    unfold searchNotes
    split_ifs
    · rfl
    · rfl
    · split <;> rfl
  rw [hnotes] at hn
  cases hn

/-- C9 at `teaStore`, where a note of each user mentions tea: the match set computed
for user 1 and the query "tea" is the note of user 1 alone. -/
theorem searchNotes_validation_and_scope_witness :
    searchNotes demoRx (Ext.ok 0 0) teaStore 1 none
      = (fail 400 "Query is required", teaStore) ∧
    searchNotes demoRx (Ext.ok 0 0) teaStore 1 (some "")
      = (fail 400 "Query is required", teaStore) ∧
    searchMatches demoRx teaStore.notes 1 "tea" =
      some [{ _id := 10, title := .str "Green Tea", content := .str "steep",
              tags := .arr [], isPinned := false, userId := 1, createdOn := 0 }] ∧
    (∀ n ∈ [({ _id := 10, title := .str "Green Tea", content := .str "steep",
               tags := .arr [], isPinned := false, userId := 1, createdOn := 0 } : Note)],
      n ∈ teaStore.notes ∧ n.userId = 1) :=
  ⟨(searchNotes_validation_and_scope demoRx (Ext.ok 0 0) teaStore 1).1,
    (searchNotes_validation_and_scope demoRx (Ext.ok 0 0) teaStore 1).2.1, rfl,
    (searchNotes_validation_and_scope demoRx (Ext.ok 0 0) teaStore 1).2.2.2 "tea" _ rfl⟩

/-- C3, the defect: `searchNotes` never puts notes in its response, whatever the
engine, the collaborators, the store, the owner and the query. At `demoStore` with
the query "t" of user 1 (engine `demoRx`) the `find` of the handler selects the note
titled "t", the response is 200 "Matching notes found." without a `notes` field,
while `getAllNotes` on the same store sends the note. -/
theorem searchNotes_omits_match_set :
    (∀ (rx : String → Option (String → Bool)) (x : Ext) (s : Store) (owner : Id)
        (q : Option String), (searchNotes rx x s owner q).1.notes = none) ∧
    searchMatches demoRx demoStore.notes 1 "t" = some [demoNote] ∧
    (searchNotes demoRx (Ext.ok 0 0) demoStore 1 (some "t")).1 =
      { status := 200, error := some false, message := some "Matching notes found.",
        notes := none } ∧
    (getAllNotes (Ext.ok 0 0) demoStore 1).1.notes = some [demoNote] := by
  refine ⟨?_, rfl, rfl, rfl⟩
  intro rx x s owner q
  unfold searchNotes
  cases searchMatches rx s.notes owner (q.getD "") <;> dsimp only <;> split_ifs <;> rfl

/-! ## Response envelope (C10) -/

/-- C10 fails: the response of `GET /` is `\x7bdata: "Hello"\x7d` with status 200; it has
neither an `error` nor a `message` field. -/
theorem root_has_no_envelope :
    root = { status := 200, data := some "Hello" } ∧
    root.error = none ∧ root.message = none ∧ root.hasEnvelope = false :=
  ⟨rfl, rfl, rfl, rfl⟩

/-- The success response of `getUser` has a `message` and no `error` field. -/
theorem getUser_success_lacks_error (x : Ext) (s : Store) (userId : Id)
    (h : (getUser x s userId).1.status = 200) :
    (getUser x s userId).1.error = none ∧ (getUser x s userId).1.message = some "" := by
  unfold getUser at h ⊢
  split_ifs at h ⊢ with h0
  · cases h
  · split at h
    · cases h
    · exact ⟨rfl, rfl⟩

theorem createAccount_envelope (c : Crypto) (x : Ext) (s : Store)
    (fn e p : Option String) : (createAccount c x s fn e p).1.hasEnvelope = true := by
  unfold createAccount
  cases findOneUser s.users (e.getD "") <;> dsimp only <;> split_ifs <;> rfl

theorem login_envelope (c : Crypto) (x : Ext) (s : Store) (e p : Option String) :
    (login c x s e p).1.hasEnvelope = true := by
  unfold login
  cases findOneUser s.users (e.getD "") <;> dsimp only <;> split_ifs <;> rfl

theorem addNote_envelope (x : Ext) (s : Store) (u : Id) (b : NoteBody) :
    (addNote x s u b).1.hasEnvelope = true := by
  unfold addNote
  dsimp only
  split_ifs <;> rfl

theorem editNote_envelope (x : Ext) (s : Store) (u noteId : Id) (b : NoteBody) :
    (editNote x s u noteId b).1.hasEnvelope = true := by
  unfold editNote
  cases findOneNote s.notes noteId u <;> dsimp only <;> split_ifs <;> rfl

theorem getAllNotes_envelope (x : Ext) (s : Store) (u : Id) :
    (getAllNotes x s u).1.hasEnvelope = true := by
  unfold getAllNotes
  split_ifs <;> rfl

theorem deleteNote_envelope (x : Ext) (s : Store) (u noteId : Id) :
    (deleteNote x s u noteId).1.hasEnvelope = true := by
  unfold deleteNote
  cases findOneNote s.notes noteId u <;> dsimp only <;> split_ifs <;> rfl

theorem updateNotePinned_envelope (x : Ext) (s : Store) (u noteId : Id) (p : JVal) :
    (updateNotePinned x s u noteId p).1.hasEnvelope = true := by
  unfold updateNotePinned
  cases findOneNote s.notes noteId u <;> dsimp only <;> split_ifs <;> rfl

theorem searchNotes_envelope (rx : String → Option (String → Bool)) (x : Ext) (s : Store)
    (u : Id) (q : Option String) : (searchNotes rx x s u q).1.hasEnvelope = true := by
  unfold searchNotes
  cases searchMatches rx s.notes u (q.getD "") <;> dsimp only <;> split_ifs <;> rfl

theorem getUser_failure_envelope (x : Ext) (s : Store) (u : Id)
    (h : (getUser x s u).1.status ≠ 200) : (getUser x s u).1.hasEnvelope = true := by
  unfold getUser at h ⊢
  cases hf : findUserById s.users u with
  | none => dsimp only; split_ifs <;> rfl
  | some v =>
    rw [hf] at h
    dsimp only at h ⊢
    split_ifs at h ⊢
    · rfl
    · exact absurd rfl h

/-- C10 as amended: on every branch (validation failure, not found, conflict, bad
credentials, server error, success) and for every input, store and behaviour of the
collaborators, the responses of `createAccount`, `login`, `addNote`, `editNote`,
`getAllNotes`, `deleteNote`, `updateNotePinned` and `searchNotes`, and the responses
of `getUser` with a status other than 200, carry a boolean `error` and a string
`message`, `error` being true exactly when the status is 400 or above. -/
theorem handlers_envelope (c : Crypto) (rx : String → Option (String → Bool)) (x : Ext)
    (s : Store) :
    (∀ fn e p, (createAccount c x s fn e p).1.hasEnvelope = true) ∧
    (∀ e p, (login c x s e p).1.hasEnvelope = true) ∧
    (∀ u b, (addNote x s u b).1.hasEnvelope = true) ∧
    (∀ u noteId b, (editNote x s u noteId b).1.hasEnvelope = true) ∧
    (∀ u, (getAllNotes x s u).1.hasEnvelope = true) ∧
    (∀ u noteId, (deleteNote x s u noteId).1.hasEnvelope = true) ∧
    (∀ u noteId p, (updateNotePinned x s u noteId p).1.hasEnvelope = true) ∧
    (∀ u q, (searchNotes rx x s u q).1.hasEnvelope = true) ∧
    (∀ u, (getUser x s u).1.status ≠ 200 → (getUser x s u).1.hasEnvelope = true) :=
  ⟨createAccount_envelope c x s, login_envelope c x s, addNote_envelope x s,
    editNote_envelope x s, getAllNotes_envelope x s, deleteNote_envelope x s,
    updateNotePinned_envelope x s, searchNotes_envelope rx x s,
    getUser_failure_envelope x s⟩

/-- C10 as amended, at `demoUsers`: the profile of an unknown id (401) and a
registration whose lookup throws (500). -/
theorem handlers_envelope_witness :
    (getUser (Ext.ok 0 0) demoUsers 99).1 = fail 401 "Unauthorized" ∧
    (getUser (Ext.ok 0 0) demoUsers 99).1.hasEnvelope = true ∧
    (createAccount demoCrypto ⟨0, 0, some 0⟩ demoUsers (some "B") (some "b@x.com")
      (some "pw")).1 = fail 500 "Server error" ∧
    (createAccount demoCrypto ⟨0, 0, some 0⟩ demoUsers (some "B") (some "b@x.com")
      (some "pw")).1.hasEnvelope = true :=
  ⟨rfl,
    (handlers_envelope demoCrypto demoRx (Ext.ok 0 0) demoUsers).2.2.2.2.2.2.2.2 99
      (by decide),
    rfl, (handlers_envelope demoCrypto demoRx ⟨0, 0, some 0⟩ demoUsers).1 _ _ _⟩


end Notes
